import Mathlib

/-!
# Verification of `narr_data.py`

Shallow embedding of the NARR plotting module (`src/narr_data.py`) and proofs
about its three routines: the timestamp decoder `time_convert` and the two map
renderers `weather_plot_hgt` and `weather_plot_dew`.

Modelling conventions:

* Numeric samples (wind, height, dewpoint, coordinates, hour offsets) are
  modelled as exact rationals `ℚ`.  The source performs float64 arithmetic;
  the linear unit conversions at issue (`/ 0.514`, `- 273.15`) agree with the
  rational model up to float rounding, which the specification's
  "within floating-point tolerance" clause absorbs.
* Python's `datetime(1800, 1, 1) + timedelta(hours=h)` is modelled on the
  proleptic Gregorian calendar with exact integer arithmetic (`timedelta`
  normalises to whole days plus a nonnegative remainder, i.e. floor division
  by 24).
* A netCDF file is modelled as a record of its coordinate variables and its
  named data variable.  The latitude/longitude variables are two-dimensional
  arrays: the source subsamples them as `lon[::2, ::2]` (lines 97 and 172),
  which requires two axes — NARR files store curvilinear 2-D coordinate
  grids.
* The renderers are modelled as functions that also return an event trace
  (file opens, file closes, the start of plotting) and thread the plotting
  backend's state (the next fresh figure number), so that ordering and
  resource claims are statable.  Indexing of the data variables is modelled
  totally with `List.getD`; the theorems that depend on indexed values carry
  explicit dimension hypotheses under which the defaults are unreachable.
-/

/-! ## Executable rational arithmetic

The standard `Rat` operations are sealed against unfolding, so concrete
renderer outputs could not be checked by `decide`.  The helpers below are
plain `mkRat` forms of multiplication, inverse, division, subtraction and
addition; each is proved equal to the corresponding standard operation, so
theorems can freely move between the two. -/

/-- Multiplication on `ℚ` in explicit `mkRat` form. -/
def ratMul (a b : ℚ) : ℚ := mkRat (a.num * b.num) (a.den * b.den)

/-- Inverse on `ℚ` in explicit `divInt` form. -/
def ratInv (a : ℚ) : ℚ := Rat.divInt a.den a.num

/-- Division on `ℚ`: multiplication by the inverse, as in the standard
definition. -/
def ratDiv (a b : ℚ) : ℚ := ratMul a (ratInv b)

/-- Subtraction on `ℚ` in explicit `mkRat` form. -/
def ratSub (a b : ℚ) : ℚ := mkRat (a.num * b.den - b.num * a.den) (a.den * b.den)

/-- Addition on `ℚ` in explicit `mkRat` form. -/
def ratAdd (a b : ℚ) : ℚ := mkRat (a.num * b.den + b.num * a.den) (a.den * b.den)

/-- The wind-unit divisor `0.514` of the source, as an explicit rational. -/
def c0514 : ℚ := mkRat 257 500

/-- The Kelvin offset `273.15` of the source, as an explicit rational. -/
def c27315 : ℚ := mkRat 5463 20

/-! ## The timestamp decoder `time_convert` -/

/-- Leap-year test of the proleptic Gregorian calendar, as used by Python
`datetime`: divisible by 4 and not by 100, or divisible by 400. -/
def isLeap (y : Int) : Bool := (y % 4 == 0 && !(y % 100 == 0)) || y % 400 == 0

/-- Number of days in calendar year `y`. -/
def daysInYear (y : Int) : Nat := if isLeap y then 366 else 365

/-- Lengths of the twelve months of a (leap or common) year. -/
def monthLengths (leap : Bool) : List Nat :=
  [31, if leap then 29 else 28, 31, 30, 31, 30, 31, 31, 30, 31, 30, 31]

/-- Resolve a zero-based day-of-year against a list of month lengths,
returning a (1-based month, 1-based day-of-month) pair. -/
def resolveMonth : List Nat → Nat → Nat → Nat × Nat
  | [], m, doy => (m, doy + 1)
  | ml :: rest, m, doy =>
    if doy < ml then (m, doy + 1) else resolveMonth rest (m + 1) (doy - ml)

/-- Walk forward from year `y` consuming a nonnegative day count `doy` until
it falls inside a year.  The fuel argument only bounds the recursion; each
step consumes at least 365 days, so fuel `doy + 1` is always sufficient. -/
def yearUpAux : Nat → Int → Nat → Int × Nat
  | 0, y, doy => (y, doy)
  | fuel + 1, y, doy =>
    if doy < daysInYear y then (y, doy)
    else yearUpAux fuel (y + 1) (doy - daysInYear y)

/-- Resolve a nonnegative day offset from January 1 of year `y` to a
(year, zero-based day-of-year) pair. -/
def yearUp (y : Int) (doy : Nat) : Int × Nat := yearUpAux (doy + 1) y doy

/-- Walk backward from January 1 of year `y` by `k ≥ 1` days.  Each step
consumes at least 365 days of `k`, so fuel `k` is always sufficient. -/
def yearDownAux : Nat → Int → Nat → Int × Nat
  | 0, y, k => (y, k)
  | fuel + 1, y, k =>
    if k ≤ daysInYear (y - 1) then (y - 1, daysInYear (y - 1) - k)
    else yearDownAux fuel (y - 1) (k - daysInYear (y - 1))

/-- Resolve a negative day offset (given as `k ≥ 1` days before January 1 of
year `y`) to a (year, zero-based day-of-year) pair. -/
def yearDown (y : Int) (k : Nat) : Int × Nat := yearDownAux k y k

/-- Convert a signed day offset from 1800-01-01 into a calendar date
(year, 1-based month, 1-based day-of-month), proleptic Gregorian. -/
def dateOfDays (d : Int) : Int × Nat × Nat :=
  let yd := if 0 ≤ d then yearUp 1800 d.toNat else yearDown 1800 d.natAbs
  let md := resolveMonth (monthLengths (isLeap yd.1)) 1 yd.2
  (yd.1, md.1, md.2)

/-- A decoded calendar timestamp, the components that `strftime` formats. -/
structure DateTime where
  year : Int
  month : Nat
  day : Nat
  hour : Nat
  minute : Nat
  second : Nat
deriving DecidableEq

/-- Zero-pad a number to two digits, as `strftime` does for `%m %d %H %M %S`. -/
def pad2 (n : Nat) : String := if n < 10 then "0" ++ toString n else toString n

/-- Zero-pad a year to four digits, as CPython's `strftime` does for `%Y`.
Python `datetime` years are at least 1, hence nonnegative here. -/
def pad4 (y : Int) : String :=
  let m := y.toNat
  if m < 10 then "000" ++ toString m
  else if m < 100 then "00" ++ toString m
  else if m < 1000 then "0" ++ toString m
  else toString m

/-- Format a timestamp as `'%Y-%m-%d %H:%M:%S'`. -/
def fmtDT (dt : DateTime) : String :=
  pad4 dt.year ++ "-" ++ pad2 dt.month ++ "-" ++ pad2 dt.day ++ " " ++
    pad2 dt.hour ++ ":" ++ pad2 dt.minute ++ ":" ++ pad2 dt.second

/-- Python `int()` applied to a rational: truncation toward zero. -/
def ratTrunc (q : ℚ) : Int :=
  if 0 ≤ q.num then q.num / (q.den : Int) else -((-q.num) / (q.den : Int))

/-- Decode an hour offset: `datetime(1800, 1, 1) + timedelta(hours=int(q))`.
`timedelta` normalises the signed hour count to whole days (floor division)
plus a remainder hour in `[0, 24)`. -/
def hoursToDT (q : ℚ) : DateTime :=
  ⟨(dateOfDays (ratTrunc q / 24)).1, (dateOfDays (ratTrunc q / 24)).2.1,
   (dateOfDays (ratTrunc q / 24)).2.2, (ratTrunc q % 24).toNat, 0, 0⟩

/-- Embedding of `time_convert` (narr_data.py lines 24-32).  The argument is
the file's `time` variable, an array of hour offsets since 1800-01-01; the
three list comprehensions of the source compose into one map. -/
def time_convert (time_data : List ℚ) : List String :=
  time_data.map (fun i => fmtDT (hoursToDT i))

/-- The epoch of the NARR time axis, `1800-01-01 00:00:00`. -/
def epochDT : DateTime := ⟨1800, 1, 1, 0, 0, 0⟩

/-- Chronological (lexicographic) strict order on decoded timestamps. -/
def dtBefore (a b : DateTime) : Prop :=
  a.year < b.year ∨ (a.year = b.year ∧ (a.month < b.month ∨ (a.month = b.month ∧
    (a.day < b.day ∨ (a.day = b.day ∧ (a.hour < b.hour ∨ (a.hour = b.hour ∧
      (a.minute < b.minute ∨ (a.minute = b.minute ∧ a.second < b.second)))))))))

/-! ## The netCDF file model and the two renderers

A pressure-level file (`uwnd.YYYYMM.nc`, `vwnd.YYYYMM.nc`, `hgt.YYYYMM.nc`)
exposes a `time` axis, a `level` axis, 2-D `lat`/`lon` coordinate grids
(NARR grids are curvilinear; the source's `lon[::2, ::2]` requires the two
axes), and one 4-D data variable indexed `[time][level][y][x]`.  A
monolevel/surface file exposes the same minus the `level` axis, with a 3-D
data variable `[time][y][x]`.  Each model record carries the file's single
named data variable (`uwnd`, `vwnd`, `hgt` or `dpt`) in the field `data`. -/

/-- Model of a NARR pressure-level netCDF file. -/
structure PressureFile where
  time : List ℚ
  level : List ℚ
  lat : List (List ℚ)
  lon : List (List ℚ)
  data : List (List (List (List ℚ)))
deriving DecidableEq

/-- Model of a NARR monolevel (surface) netCDF file. -/
structure SurfaceFile where
  time : List ℚ
  lat : List (List ℚ)
  lon : List (List ℚ)
  data : List (List (List ℚ))
deriving DecidableEq

/-- Index of the first list entry satisfying `p`, or `none`: the model of
`np.where(arr == x)[0][0]`, whose `[0]` access raises `IndexError` when the
match set is empty. -/
def firstMatch {α : Type} (p : α → Bool) : List α → Option Nat
  | [] => none
  | a :: rest => if p a then some 0 else (firstMatch p rest).map (· + 1)

/-- Every-other-element subsampling, the 1-D `[::2]` slice. -/
def every2 {α : Type} : List α → List α
  | [] => []
  | [a] => [a]
  | a :: _ :: rest => a :: every2 rest

/-- Every-other-point subsampling of a 2-D array, the `[::2, ::2]` slice. -/
def every22 (M : List (List ℚ)) : List (List ℚ) := (every2 M).map every2

/-- Apply `f` to every sample of a 2-D array. -/
def map2D (f : ℚ → ℚ) (M : List (List ℚ)) : List (List ℚ) :=
  M.map (fun row => row.map f)

/-- Sample of a 2-D array at row `i`, column `j`, if present. -/
def sample2D (M : List (List ℚ)) (i j : Nat) : Option ℚ :=
  M[i]?.bind (fun row => row[j]?)

/-- Floor of a rational, in executable form. -/
def ratFloor (q : ℚ) : Int := q.num.fdiv q.den

/-- Ceiling of a rational, in executable form. -/
def ratCeil (q : ℚ) : Int := -ratFloor (-q)

/-- Elements of `np.arange(start, stop, step)`: `start + k * step` for
`k = 0, 1, ...`, of count `ceil((stop - start) / step)`. -/
def arangeAux (start step : ℚ) : Nat → List ℚ
  | 0 => []
  | n + 1 => start :: arangeAux (ratAdd start step) step n

/-- Model of `np.arange` on rationals. -/
def arange (start stop step : ℚ) : List ℚ :=
  arangeAux start step (ratCeil (ratDiv (ratSub stop start) step)).toNat

/-- An observable event of a renderer call: opening a file, closing a file,
or starting to build the plot (`plt.subplots` and everything after). -/
inductive Ev where
  | openF : String → Ev
  | closeF : String → Ev
  | plotBegin : Ev
deriving DecidableEq

/-- State of the plotting backend: the number the next fresh figure will
receive.  `plt.subplots()` always allocates a fresh figure. -/
structure PltState where
  nextFig : Nat
deriving DecidableEq

/-- The data handed to `ax.contourf(x, y, z, levels, cmap)`. -/
structure ContourPlot where
  x : List (List ℚ)
  y : List (List ℚ)
  z : List (List ℚ)
  levels : List ℚ
  cmap : String
deriving DecidableEq

/-- The data handed to `ax.barbs(x, y, u, v, barbcolor, linewidth)`. -/
structure BarbPlot where
  x : List (List ℚ)
  y : List (List ℚ)
  u : List (List ℚ)
  v : List (List ℚ)
  color : String
  linewidth : ℚ
deriving DecidableEq

/-- The returned axis object: the figure it belongs to and everything drawn
on it. -/
structure AxisHandle where
  figId : Nat
  projection : String
  extent : Option (List ℚ)
  contour : ContourPlot
  barbs : BarbPlot
  features : List String
  cbarLabel : String
deriving DecidableEq

deriving instance DecidableEq for Except

/-- Outcome of one renderer call: the event trace, the final backend state,
and either the returned value or the propagated error. -/
structure RunResult (α : Type) where
  trace : List Ev
  plt : PltState
  out : Except String α
deriving DecidableEq

/-- The error numpy raises for `np.where(...)[0][0]` on an empty match. -/
def indexErrorMsg : String := "IndexError: index 0 is out of bounds for axis 0 with size 0"

/-- The geographic reference layers added by both renderers. -/
def narrFeatures : List String :=
  ["BORDERS", "COASTLINE", "OCEAN", "LAND", "LAKES", "RIVERS",
   "GSHHSFeature level 1", "USCOUNTIES 500k"]

/-- Contour levels `np.arange(5910, 6000, 5)` of the pressure renderer. -/
def height_range : List ℚ := arange 5910 6000 5

/-- Contour levels `np.arange(18.5, 24.0, 0.3)` of the surface renderer. -/
def dew_range : List ℚ := arange (mkRat 37 2) 24 (mkRat 3 10)

/-- Embedding of `weather_plot_hgt` (narr_data.py lines 34-110), with the
plotting backend state threaded and the open/close/plot events traced.
Statement order follows the source: open the three files, decode the time
axis from the u-wind file, look up the date and then the level (each a
`np.where(...)[0][0]` that raises on no match), slice the three data
variables at `[time_where][level_where]`, read `lat`/`lon` from the u-wind
file, convert the winds to knots, close the three files, then build the
plot and return the height slice and the axis. -/
def weather_plot_hgt (uwnd_file vwnd_file hgt_file : PressureFile) (level : ℚ)
    (date : String) (cmap barb_color : String) (extent : Option (List ℚ))
    (s : PltState) : RunResult (List (List ℚ) × AxisHandle) :=
  let ev := [Ev.openF "uwnd", Ev.openF "vwnd", Ev.openF "hgt"]
  let time := time_convert uwnd_file.time
  match firstMatch (fun t => t == date) time with
  | none => ⟨ev, s, Except.error indexErrorMsg⟩
  | some time_where =>
    match firstMatch (fun l => l == level) uwnd_file.level with
    | none => ⟨ev, s, Except.error indexErrorMsg⟩
    | some level_where =>
      let uwnd := (uwnd_file.data.getD time_where []).getD level_where []
      let vwnd := (vwnd_file.data.getD time_where []).getD level_where []
      let hgt := (hgt_file.data.getD time_where []).getD level_where []
      let lat := uwnd_file.lat
      let lon := uwnd_file.lon
      let uwnd := map2D (fun x => ratDiv x c0514) uwnd
      let vwnd := map2D (fun x => ratDiv x c0514) vwnd
      let ev := ev ++ [Ev.closeF "uwnd", Ev.closeF "vwnd", Ev.closeF "hgt"]
      let ax : AxisHandle :=
        ⟨s.nextFig, "PlateCarree", extent,
         ⟨lon, lat, hgt, height_range, cmap⟩,
         ⟨every22 lon, every22 lat, every22 uwnd, every22 vwnd, barb_color, 2⟩,
         narrFeatures, toString level ++ " mb Geopotential Height (meters)"⟩
      ⟨ev ++ [Ev.plotBegin], ⟨s.nextFig + 1⟩, Except.ok (hgt, ax)⟩

/-- Embedding of `weather_plot_dew` (narr_data.py lines 112-185).  Same
structure as the pressure renderer but with no level lookup; the contour is
drawn from `dew - 273.15` (Celsius) while the returned array is the raw
`dew` slice exactly as read from the file (Kelvin). -/
def weather_plot_dew (uwnd_file vwnd_file dew_file : SurfaceFile)
    (date : String) (cmap barb_color : String) (extent : Option (List ℚ))
    (s : PltState) : RunResult (List (List ℚ) × AxisHandle) :=
  let ev := [Ev.openF "uwnd", Ev.openF "vwnd", Ev.openF "dpt"]
  let time := time_convert uwnd_file.time
  match firstMatch (fun t => t == date) time with
  | none => ⟨ev, s, Except.error indexErrorMsg⟩
  | some time_where =>
    let uwnd := uwnd_file.data.getD time_where []
    let vwnd := vwnd_file.data.getD time_where []
    let dew := dew_file.data.getD time_where []
    let lat := uwnd_file.lat
    let lon := uwnd_file.lon
    let uwnd := map2D (fun x => ratDiv x c0514) uwnd
    let vwnd := map2D (fun x => ratDiv x c0514) vwnd
    let ev := ev ++ [Ev.closeF "uwnd", Ev.closeF "vwnd", Ev.closeF "dpt"]
    let ax : AxisHandle :=
      ⟨s.nextFig, "PlateCarree", extent,
       ⟨lon, lat, map2D (fun x => ratSub x c27315) dew, dew_range, cmap⟩,
       ⟨every22 lon, every22 lat, every22 uwnd, every22 vwnd, barb_color, 2⟩,
       narrFeatures, "2-Meter Dewpoint (Celsius)"⟩
    ⟨ev ++ [Ev.plotBegin], ⟨s.nextFig + 1⟩, Except.ok (dew, ax)⟩

/-! ## Dimension consistency and concrete test files -/

/-- A 2-D array with `ny` rows of `nx` entries each. -/
def isGrid (M : List (List ℚ)) (ny nx : Nat) : Prop :=
  M.length = ny ∧ ∀ r ∈ M, r.length = nx

/-- Dimension consistency of a pressure-level file: the data variable has
dimensions `(ntime, nlevel, ny, nx)` matching the lengths of the coordinate
variables, and the coordinate grids are `ny × nx`. -/
def PFileWF (f : PressureFile) (ntime nlevel ny nx : Nat) : Prop :=
  f.time.length = ntime ∧ f.level.length = nlevel ∧
  isGrid f.lat ny nx ∧ isGrid f.lon ny nx ∧
  f.data.length = ntime ∧ ∀ sl ∈ f.data, sl.length = nlevel ∧ ∀ g ∈ sl, isGrid g ny nx

/-- Dimension consistency of a surface file. -/
def SFileWF (f : SurfaceFile) (ntime ny nx : Nat) : Prop :=
  f.time.length = ntime ∧ isGrid f.lat ny nx ∧ isGrid f.lon ny nx ∧
  f.data.length = ntime ∧ ∀ g ∈ f.data, isGrid g ny nx

instance (M : List (List ℚ)) (ny nx : Nat) : Decidable (isGrid M ny nx) := by
  unfold isGrid
  infer_instance

instance (f : PressureFile) (ntime nlevel ny nx : Nat) :
    Decidable (PFileWF f ntime nlevel ny nx) := by
  unfold PFileWF
  infer_instance

instance (f : SurfaceFile) (ntime ny nx : Nat) :
    Decidable (SFileWF f ntime ny nx) := by
  unfold SFileWF
  infer_instance

/-- Concrete pressure-level u-wind file: one time step (the epoch), one
level (500), a 1 × 2 grid, a wind sample of exactly 0.514 m/s. -/
def uPtest : PressureFile := ⟨[0], [500], [[31, 32]], [[-90, -89]], [[[[c0514, 1]]]]⟩

/-- Concrete pressure-level v-wind file matching `uPtest`. -/
def vPtest : PressureFile := ⟨[0], [500], [[31, 32]], [[-90, -89]], [[[[0, 2]]]]⟩

/-- Concrete pressure-level height file matching `uPtest`. -/
def hPtest : PressureFile := ⟨[0], [500], [[31, 32]], [[-90, -89]], [[[[5950, 5955]]]]⟩

/-- A v-wind file with the same data variable as `vPtest` but entirely
different coordinate axes. -/
def vPtest2 : PressureFile := ⟨[999], [9], [[0]], [[0]], vPtest.data⟩

/-- A height file with the same data variable as `hPtest` but entirely
different coordinate axes. -/
def hPtest2 : PressureFile := ⟨[999], [9], [[0]], [[0]], hPtest.data⟩

/-- Concrete surface u-wind file: one time step (the epoch), a 1 × 2 grid,
a wind sample of exactly 0.514 m/s. -/
def uStest : SurfaceFile := ⟨[0], [[31, 32]], [[-90, -89]], [[[c0514, 1]]]⟩

/-- Concrete surface v-wind file matching `uStest`. -/
def vStest : SurfaceFile := ⟨[0], [[31, 32]], [[-90, -89]], [[[0, c0514]]]⟩

/-- Concrete surface dewpoint file with a sample of exactly 273.15 K. -/
def dStest : SurfaceFile := ⟨[0], [[31, 32]], [[-90, -89]], [[[c27315, 280]]]⟩

/-- A surface v-wind file with the same data variable as `vStest` but
different coordinate axes. -/
def vStest2 : SurfaceFile := ⟨[999], [[0]], [[0]], vStest.data⟩

/-- A surface dewpoint file with the same data variable as `dStest` but
different coordinate axes. -/
def dStest2 : SurfaceFile := ⟨[999], [[0]], [[0]], dStest.data⟩

/-! ## Helper lemmas -/

theorem ratMul_eq (a b : ℚ) : ratMul a b = a * b := by
  rw [ratMul, ← Rat.normalize_eq_mkRat (Nat.mul_ne_zero a.den_nz b.den_nz), ← Rat.mul_def]

theorem ratInv_eq (a : ℚ) : ratInv a = a⁻¹ := (Rat.inv_def' a).symm

theorem ratDiv_eq (a b : ℚ) : ratDiv a b = a / b := by
  rw [ratDiv, ratMul_eq, ratInv_eq, div_eq_mul_inv]

theorem ratSub_eq (a b : ℚ) : ratSub a b = a - b := (Rat.sub_def' a b).symm

theorem ratAdd_eq (a b : ℚ) : ratAdd a b = a + b := (Rat.add_def' a b).symm

theorem c0514_eq : c0514 = (0.514 : ℚ) := by norm_num [c0514, Rat.mkRat_eq_div]

theorem c27315_eq : c27315 = (273.15 : ℚ) := by norm_num [c27315, Rat.mkRat_eq_div]

theorem time_convert_length (ts : List ℚ) : (time_convert ts).length = ts.length :=
  List.length_map ts _

theorem time_convert_getElem? (ts : List ℚ) (i : Nat) :
    (time_convert ts)[i]? = (ts[i]?).map (fun q => fmtDT (hoursToDT q)) :=
  List.getElem?_map _ ts i

theorem firstMatch_lt_length {α : Type} (p : α → Bool) :
    ∀ (l : List α) (i : Nat), firstMatch p l = some i → i < l.length
  | [], i, h => by simp [firstMatch] at h
  | a :: rest, i, h => by
    by_cases hp : p a
    · simp only [firstMatch, hp, if_true, Option.some.injEq] at h
      simp [← h]
    · simp only [firstMatch, hp, if_false] at h
      cases hm : firstMatch p rest with
      | none => rw [hm] at h; simp at h
      | some j =>
        rw [hm] at h
        have hji : i = j + 1 := by simpa using h.symm
        have := firstMatch_lt_length p rest j hm
        simp only [List.length_cons]
        omega

theorem firstMatch_eq_none {α : Type} [BEq α] [LawfulBEq α] (a : α) :
    ∀ (l : List α), a ∉ l → firstMatch (fun x => x == a) l = none
  | [], _ => rfl
  | b :: rest, h => by
    have hab : ¬(a = b) ∧ a ∉ rest := by
      simpa [List.mem_cons, not_or] using h
    have hb : (b == a) = false := by
      simp only [beq_eq_false_iff_ne, ne_eq]
      exact fun hba => hab.1 hba.symm
    simp [firstMatch, hb, firstMatch_eq_none a rest hab.2]

theorem firstMatch_mem_some {α : Type} [BEq α] [LawfulBEq α] (a : α) :
    ∀ (l : List α), a ∈ l → ∃ i, firstMatch (fun x => x == a) l = some i
  | [], h => absurd h (List.not_mem_nil a)
  | b :: rest, h => by
    by_cases hb : b == a
    · exact ⟨0, by simp [firstMatch, hb]⟩
    · have hmem : a ∈ rest := by
        rcases List.mem_cons.mp h with h1 | h1
        · exact absurd (beq_iff_eq.mpr h1.symm) (by simpa using hb)
        · exact h1
      obtain ⟨i, hi⟩ := firstMatch_mem_some a rest hmem
      exact ⟨i + 1, by simp [firstMatch, hb, hi]⟩

theorem getD_mem {α : Type} :
    ∀ (l : List α) (i : Nat) (d : α), i < l.length → l.getD i d ∈ l
  | a :: rest, 0, d, _ => by simp
  | a :: rest, i + 1, d, h => by
    simp only [List.getD_cons_succ]
    exact List.mem_cons_of_mem a (getD_mem rest i d (by simpa using h))

theorem every2_getElem? {α : Type} :
    ∀ (l : List α) (i : Nat), (every2 l)[i]? = l[2 * i]?
  | [], i => by simp [every2]
  | [a], 0 => by simp [every2]
  | [a], i + 1 => by
    rw [every2, List.getElem?_eq_none (by simp), List.getElem?_eq_none (by simp; omega)]
  | a :: b :: rest, 0 => by simp [every2]
  | a :: b :: rest, i + 1 => by
    have ih := every2_getElem? rest i
    rw [every2, show 2 * (i + 1) = 2 * i + 1 + 1 by ring]
    simp only [List.getElem?_cons_succ]
    exact ih

theorem sample2D_map2D (f : ℚ → ℚ) (M : List (List ℚ)) (i j : Nat) :
    sample2D (map2D f M) i j = (sample2D M i j).map f := by
  unfold sample2D map2D
  rw [List.getElem?_map]
  cases M[i]? with
  | none => rfl
  | some row => simp [List.getElem?_map]

theorem sample2D_every22 (M : List (List ℚ)) (i j : Nat) :
    sample2D (every22 M) i j = sample2D M (2 * i) (2 * j) := by
  unfold sample2D every22
  rw [List.getElem?_map, every2_getElem?]
  cases M[2 * i]? with
  | none => rfl
  | some row => simp [every2_getElem?]

theorem daysInYear_pos (y : Int) : 0 < daysInYear y := by
  unfold daysInYear; split <;> omega

theorem yearDownAux_year_le :
    ∀ (fuel : Nat) (y : Int) (k : Nat), 1 ≤ k → k ≤ fuel →
      (yearDownAux fuel y k).1 ≤ y - 1
  | 0, y, k, h1, h2 => by omega
  | fuel + 1, y, k, h1, h2 => by
    rw [yearDownAux]
    split
    · simp
    · next hgt2 =>
      have hd := daysInYear_pos (y - 1)
      have ih := yearDownAux_year_le fuel (y - 1) (k - daysInYear (y - 1))
        (by omega) (by omega)
      omega

theorem dateOfDays_year_le (d : Int) (hd : d < 0) : (dateOfDays d).1 ≤ 1799 := by
  rw [dateOfDays]
  rw [if_neg (by omega)]
  have := yearDownAux_year_le d.natAbs 1800 d.natAbs (by omega) (le_refl _)
  simpa [yearDown] using this

theorem ratTrunc_eq_floor {q : ℚ} (h : 0 ≤ q) : ratTrunc q = ⌊q⌋ := by
  rw [ratTrunc, if_pos (Rat.num_nonneg.mpr h), Rat.floor_def]

theorem ratTrunc_eq_ceil {q : ℚ} (h : q < 0) : ratTrunc q = ⌈q⌉ := by
  have hn : ¬ 0 ≤ q.num := by rw [Rat.num_nonneg]; exact not_le.mpr h
  rw [ratTrunc, if_neg hn]
  rw [show ⌈q⌉ = -⌊-q⌋ by rw [Int.floor_neg, neg_neg]]
  rw [Rat.floor_def, Rat.neg_num, Rat.neg_den]

theorem hoursToDT_year_le (q : ℚ) (h : ratTrunc q < 0) : (hoursToDT q).year ≤ 1799 := by
  have hdiv : ratTrunc q / 24 < 0 := by omega
  rw [hoursToDT]
  exact dateOfDays_year_le _ hdiv


/-! ## Claims -/

/-- Claim C1, corrected, counterexample to the claim as stated.  The claim
says the first element of `weather_plot_dew`'s returned tuple is the
dewpoint slice converted to Celsius, so a file sample of 273.15 K would
appear as 0.0 there.  On a concrete call whose dewpoint file holds
`[[273.15, 280]]` (Kelvin), the returned field is the raw Kelvin slice
`[[273.15, 280]]` itself, which differs from its Celsius conversion: the
273.15 K sample appears as 273.15, not 0.0. -/
theorem claim_C1_counterexample :
    (weather_plot_dew uStest vStest dStest "1800-01-01 00:00:00" "Greens" "blue"
        none ⟨0⟩).out.map Prod.fst = Except.ok [[c27315, 280]] ∧
    [[c27315, (280 : ℚ)]] ≠ map2D (fun x => ratSub x c27315) [[c27315, 280]] ∧
    (map2D (fun x => ratSub x c27315) [[c27315, 280]]).getD 0 [] =
      [0, ratSub 280 c27315] := by
  exact ⟨by decide, by decide, by decide⟩

/-- Claim C1, amended: in `weather_plot_dew`, the field handed to the
filled-contour step is the file's Kelvin slice converted to Celsius by
subtracting 273.15 (a 273.15 K sample is plotted as 0.0), but the first
element of the returned tuple is the raw Kelvin slice with no conversion
applied. -/
theorem claim_C1_amended (uS vS dS : SurfaceFile) (date cmap bc : String)
    (ext : Option (List ℚ)) (s : PltState) (t : Nat)
    (ht : firstMatch (fun x => x == date) (time_convert uS.time) = some t) :
    ∃ ax, (weather_plot_dew uS vS dS date cmap bc ext s).out =
        Except.ok (dS.data.getD t [], ax) ∧
      ax.contour.z = map2D (fun x => ratSub x c27315) (dS.data.getD t []) ∧
      ∀ i j, sample2D ax.contour.z i j =
        (sample2D (dS.data.getD t []) i j).map (fun x => x - 273.15) := by
  simp only [weather_plot_dew, ht]
  refine ⟨_, rfl, rfl, fun i j => ?_⟩
  rw [sample2D_map2D]
  congr 1
  funext x
  rw [ratSub_eq, c27315_eq]

/-- Claim C1, witness for the amended theorem at the concrete files: the
contour field is the Celsius conversion of the Kelvin slice `[[273.15, 280]]`
and the 273.15 K sample is plotted as 0.0. -/
theorem claim_C1_witness :
    (∃ ax, (weather_plot_dew uStest vStest dStest "1800-01-01 00:00:00" "Greens"
        "blue" none ⟨0⟩).out = Except.ok (dStest.data.getD 0 [], ax) ∧
      ax.contour.z = map2D (fun x => ratSub x c27315) (dStest.data.getD 0 []) ∧
      ∀ i j, sample2D ax.contour.z i j =
        (sample2D (dStest.data.getD 0 []) i j).map (fun x => x - 273.15)) ∧
    (weather_plot_dew uStest vStest dStest "1800-01-01 00:00:00" "Greens" "blue"
        none ⟨0⟩).out.map (fun p => sample2D p.2.contour.z 0 0) =
      Except.ok (some 0) :=
  ⟨claim_C1_amended uStest vStest dStest "1800-01-01 00:00:00" "Greens" "blue"
    none ⟨0⟩ 0 (by decide), by decide⟩

/-- Claim C2, confirmed: a renderer call whose date string matches no entry
of the decoded time axis (or, for the pressure renderer, whose level matches
no level entry) produces the propagated numpy lookup error, leaves the
plotting backend untouched (no figure allocated), and its trace contains
only the three file opens — in particular plotting never begins, and no
partially-built plot is returned. -/
theorem claim_C2 (uP vP hP : PressureFile) (uS vS dS : SurfaceFile) (lvl : ℚ)
    (date cmap bc : String) (ext : Option (List ℚ)) (s : PltState) :
    (date ∉ time_convert uP.time →
      (weather_plot_hgt uP vP hP lvl date cmap bc ext s).out =
          Except.error indexErrorMsg ∧
        (weather_plot_hgt uP vP hP lvl date cmap bc ext s).plt = s ∧
        (weather_plot_hgt uP vP hP lvl date cmap bc ext s).trace =
          [Ev.openF "uwnd", Ev.openF "vwnd", Ev.openF "hgt"]) ∧
    (lvl ∉ uP.level →
      (weather_plot_hgt uP vP hP lvl date cmap bc ext s).out =
          Except.error indexErrorMsg ∧
        (weather_plot_hgt uP vP hP lvl date cmap bc ext s).plt = s ∧
        (weather_plot_hgt uP vP hP lvl date cmap bc ext s).trace =
          [Ev.openF "uwnd", Ev.openF "vwnd", Ev.openF "hgt"]) ∧
    (date ∉ time_convert uS.time →
      (weather_plot_dew uS vS dS date cmap bc ext s).out =
          Except.error indexErrorMsg ∧
        (weather_plot_dew uS vS dS date cmap bc ext s).plt = s ∧
        (weather_plot_dew uS vS dS date cmap bc ext s).trace =
          [Ev.openF "uwnd", Ev.openF "vwnd", Ev.openF "dpt"]) := by
  refine ⟨fun hd => ?_, fun hl => ?_, fun hd => ?_⟩
  · have hm := firstMatch_eq_none date (time_convert uP.time) hd
    simp [weather_plot_hgt, hm]
  · have hml := firstMatch_eq_none lvl uP.level hl
    cases hm : firstMatch (fun t => t == date) (time_convert uP.time) with
    | none => simp [weather_plot_hgt, hm]
    | some t => simp [weather_plot_hgt, hm, hml]
  · have hm := firstMatch_eq_none date (time_convert uS.time) hd
    simp [weather_plot_dew, hm]

/-- Claim C2, witness: a date absent from the concrete files' time axis
produces the lookup error in both renderers, and an absent level does too. -/
theorem claim_C2_witness :
    (weather_plot_hgt uPtest vPtest hPtest 500 "1800-01-02 00:00:00" "Reds"
        "darkblue" none ⟨0⟩).out = Except.error indexErrorMsg ∧
    (weather_plot_hgt uPtest vPtest hPtest 850 "1800-01-01 00:00:00" "Reds"
        "darkblue" none ⟨0⟩).out = Except.error indexErrorMsg ∧
    (weather_plot_dew uStest vStest dStest "1800-01-02 00:00:00" "Greens" "blue"
        none ⟨0⟩).out = Except.error indexErrorMsg :=
  ⟨((claim_C2 uPtest vPtest hPtest uStest vStest dStest 500 "1800-01-02 00:00:00"
      "Reds" "darkblue" none ⟨0⟩).1 (by decide)).1,
   ((claim_C2 uPtest vPtest hPtest uStest vStest dStest 850 "1800-01-01 00:00:00"
      "Reds" "darkblue" none ⟨0⟩).2.1 (by decide)).1,
   ((claim_C2 uPtest vPtest hPtest uStest vStest dStest 500 "1800-01-02 00:00:00"
      "Reds" "darkblue" none ⟨0⟩).2.2 (by decide)).1⟩

/-- Claim C3, confirmed: when the date (and, for the pressure renderer, the
level) lookup succeeds, the call's trace is exactly open, open, open, close,
close, close, plot-begin — all three closes precede the start of plotting,
hence happen before the call returns, independent of anything the plotting
layer later does; when either lookup fails, the trace is exactly the three
opens — no file handle has been closed when the error propagates. -/
theorem claim_C3 (uP vP hP : PressureFile) (uS vS dS : SurfaceFile) (lvl : ℚ)
    (date cmap bc : String) (ext : Option (List ℚ)) (s : PltState) :
    (∀ t li, firstMatch (fun x => x == date) (time_convert uP.time) = some t →
      firstMatch (fun l => l == lvl) uP.level = some li →
      (weather_plot_hgt uP vP hP lvl date cmap bc ext s).trace =
        [Ev.openF "uwnd", Ev.openF "vwnd", Ev.openF "hgt", Ev.closeF "uwnd",
         Ev.closeF "vwnd", Ev.closeF "hgt", Ev.plotBegin]) ∧
    (firstMatch (fun x => x == date) (time_convert uP.time) = none ∨
        firstMatch (fun l => l == lvl) uP.level = none →
      (weather_plot_hgt uP vP hP lvl date cmap bc ext s).trace =
          [Ev.openF "uwnd", Ev.openF "vwnd", Ev.openF "hgt"] ∧
        ∀ nm, Ev.closeF nm ∉ (weather_plot_hgt uP vP hP lvl date cmap bc ext s).trace) ∧
    (∀ t, firstMatch (fun x => x == date) (time_convert uS.time) = some t →
      (weather_plot_dew uS vS dS date cmap bc ext s).trace =
        [Ev.openF "uwnd", Ev.openF "vwnd", Ev.openF "dpt", Ev.closeF "uwnd",
         Ev.closeF "vwnd", Ev.closeF "dpt", Ev.plotBegin]) ∧
    (firstMatch (fun x => x == date) (time_convert uS.time) = none →
      (weather_plot_dew uS vS dS date cmap bc ext s).trace =
          [Ev.openF "uwnd", Ev.openF "vwnd", Ev.openF "dpt"] ∧
        ∀ nm, Ev.closeF nm ∉ (weather_plot_dew uS vS dS date cmap bc ext s).trace) := by
  refine ⟨fun t li ht hli => ?_, fun hfail => ?_, fun t ht => ?_, fun hm => ?_⟩
  · simp [weather_plot_hgt, ht, hli]
  · rcases hfail with hm | hml
    · constructor
      · simp [weather_plot_hgt, hm]
      · intro nm
        simp [weather_plot_hgt, hm]
    · cases hm : firstMatch (fun t => t == date) (time_convert uP.time) with
      | none =>
        constructor
        · simp [weather_plot_hgt, hm]
        · intro nm
          simp [weather_plot_hgt, hm]
      | some t =>
        constructor
        · simp [weather_plot_hgt, hm, hml]
        · intro nm
          simp [weather_plot_hgt, hm, hml]
  · simp [weather_plot_dew, ht]
  · constructor
    · simp [weather_plot_dew, hm]
    · intro nm
      simp [weather_plot_dew, hm]

/-- Claim C3, witness: the success trace and the failure trace at concrete
inputs, obtained from the theorem with the lookups discharged by
computation. -/
theorem claim_C3_witness :
    (weather_plot_hgt uPtest vPtest hPtest 500 "1800-01-01 00:00:00" "Reds"
        "darkblue" none ⟨0⟩).trace =
      [Ev.openF "uwnd", Ev.openF "vwnd", Ev.openF "hgt", Ev.closeF "uwnd",
       Ev.closeF "vwnd", Ev.closeF "hgt", Ev.plotBegin] ∧
    (weather_plot_hgt uPtest vPtest hPtest 500 "1800-01-02 00:00:00" "Reds"
        "darkblue" none ⟨0⟩).trace =
      [Ev.openF "uwnd", Ev.openF "vwnd", Ev.openF "hgt"] ∧
    (weather_plot_dew uStest vStest dStest "1800-01-01 00:00:00" "Greens" "blue"
        none ⟨0⟩).trace =
      [Ev.openF "uwnd", Ev.openF "vwnd", Ev.openF "dpt", Ev.closeF "uwnd",
       Ev.closeF "vwnd", Ev.closeF "dpt", Ev.plotBegin] :=
  ⟨(claim_C3 uPtest vPtest hPtest uStest vStest dStest 500 "1800-01-01 00:00:00"
      "Reds" "darkblue" none ⟨0⟩).1 0 0 (by decide) (by decide),
   ((claim_C3 uPtest vPtest hPtest uStest vStest dStest 500 "1800-01-02 00:00:00"
      "Reds" "darkblue" none ⟨0⟩).2.1 (Or.inl (by decide))).1,
   (claim_C3 uPtest vPtest hPtest uStest vStest dStest 500 "1800-01-01 00:00:00"
      "Greens" "blue" none ⟨0⟩).2.2.1 0 (by decide)⟩

/-- Claim C4, confirmed: `time_convert` maps an hour-offset sequence to a
string sequence of the same length and order, the `i`-th output string
decoding the `i`-th offset (truncated to an integer, added to the
1800-01-01 00:00:00 epoch, formatted `YYYY-MM-DD HH:MM:SS`); the empty axis
yields the empty sequence, offset 0 yields `1800-01-01 00:00:00`, and
offset 8760 yields `1801-01-01 00:00:00`. -/
theorem claim_C4 (ts : List ℚ) :
    (time_convert ts).length = ts.length ∧
    (∀ (i : Nat) (q : ℚ), ts[i]? = some q →
      (time_convert ts)[i]? = some (fmtDT (hoursToDT q))) ∧
    time_convert [] = [] ∧
    fmtDT (hoursToDT 0) = "1800-01-01 00:00:00" ∧
    fmtDT (hoursToDT 8760) = "1801-01-01 00:00:00" :=
  ⟨time_convert_length ts,
   fun i q hq => by rw [time_convert_getElem?, hq]; rfl,
   rfl, by decide, by decide⟩

/-- Claim C4, witness at a concrete two-element axis: both entries decode in
order to the anchored strings. -/
theorem claim_C4_witness :
    (time_convert [0, 8760]).length = 2 ∧
    (time_convert [(0 : ℚ), 8760])[1]? = some (fmtDT (hoursToDT 8760)) ∧
    fmtDT (hoursToDT 8760) = "1801-01-01 00:00:00" ∧
    time_convert [0, 8760] = ["1800-01-01 00:00:00", "1801-01-01 00:00:00"] :=
  ⟨(claim_C4 [0, 8760]).1,
   (claim_C4 [0, 8760]).2.1 1 8760 (by decide),
   (claim_C4 [0, 8760]).2.2.2.2, by decide⟩

/-- Claim C5, confirmed: in both renderers every u-wind and v-wind sample
handed to the wind-barb step is the corresponding raw meters-per-second
sample of the wind file's selected slice divided by 0.514; the barb grid
point `(i, j)` corresponds to raw grid point `(2i, 2j)` because only every
other point is plotted. -/
theorem claim_C5 (uP vP hP : PressureFile) (uS vS dS : SurfaceFile) (lvl : ℚ)
    (date cmap bc : String) (ext : Option (List ℚ)) (s : PltState)
    (t li ts : Nat)
    (ht : firstMatch (fun x => x == date) (time_convert uP.time) = some t)
    (hli : firstMatch (fun l => l == lvl) uP.level = some li)
    (hts : firstMatch (fun x => x == date) (time_convert uS.time) = some ts) :
    (∃ fld ax, (weather_plot_hgt uP vP hP lvl date cmap bc ext s).out =
        Except.ok (fld, ax) ∧
      (∀ i j, sample2D ax.barbs.u i j =
        (sample2D ((uP.data.getD t []).getD li []) (2 * i) (2 * j)).map
          (fun x => x / 0.514)) ∧
      (∀ i j, sample2D ax.barbs.v i j =
        (sample2D ((vP.data.getD t []).getD li []) (2 * i) (2 * j)).map
          (fun x => x / 0.514))) ∧
    (∃ fld ax, (weather_plot_dew uS vS dS date cmap bc ext s).out =
        Except.ok (fld, ax) ∧
      (∀ i j, sample2D ax.barbs.u i j =
        (sample2D (uS.data.getD ts []) (2 * i) (2 * j)).map
          (fun x => x / 0.514)) ∧
      (∀ i j, sample2D ax.barbs.v i j =
        (sample2D (vS.data.getD ts []) (2 * i) (2 * j)).map
          (fun x => x / 0.514))) := by
  have hfun : (fun x => ratDiv x c0514) = (fun x : ℚ => x / 0.514) := by
    funext x
    rw [ratDiv_eq, c0514_eq]
  constructor
  · simp only [weather_plot_hgt, ht, hli]
    refine ⟨_, _, rfl, fun i j => ?_, fun i j => ?_⟩ <;>
      rw [sample2D_every22, sample2D_map2D, hfun]
  · simp only [weather_plot_dew, hts]
    refine ⟨_, _, rfl, fun i j => ?_, fun i j => ?_⟩ <;>
      rw [sample2D_every22, sample2D_map2D, hfun]

/-- Claim C5, witness: the amended statement instantiated at the concrete
files, plus the anchor sample — the 0.514 m/s sample at grid point (0,0) is
handed to the barb step as exactly 1.0 knot. -/
theorem claim_C5_witness :
    (∃ fld ax, (weather_plot_hgt uPtest vPtest hPtest 500 "1800-01-01 00:00:00"
        "Reds" "darkblue" none ⟨0⟩).out = Except.ok (fld, ax) ∧
      (∀ i j, sample2D ax.barbs.u i j =
        (sample2D ((uPtest.data.getD 0 []).getD 0 []) (2 * i) (2 * j)).map
          (fun x => x / 0.514)) ∧
      (∀ i j, sample2D ax.barbs.v i j =
        (sample2D ((vPtest.data.getD 0 []).getD 0 []) (2 * i) (2 * j)).map
          (fun x => x / 0.514))) ∧
    (weather_plot_hgt uPtest vPtest hPtest 500 "1800-01-01 00:00:00" "Reds"
        "darkblue" none ⟨0⟩).out.map (fun p => sample2D p.2.barbs.u 0 0) =
      Except.ok (some 1) :=
  ⟨(claim_C5 uPtest vPtest hPtest uStest vStest dStest 500 "1800-01-01 00:00:00"
      "Reds" "darkblue" none ⟨0⟩ 0 0 0 (by decide) (by decide) (by decide)).1,
   by decide⟩

/-- Claim C6, corrected, counterexample to the claim as stated.  NARR
latitude and longitude variables are 2-D curvilinear grids (the source's
`lon[::2, ::2]` requires two axes), so Python's `len(lon)` is the grid's
row count, not its column count.  On a concrete call over a 1 × 2 grid the
returned field has shape `(1, 2)` while `(len(lat), len(lon)) = (1, 1)`:
the second shape component differs from `len(lon)`. -/
theorem claim_C6_counterexample :
    (weather_plot_hgt uPtest vPtest hPtest 500 "1800-01-01 00:00:00" "Reds"
        "darkblue" none ⟨0⟩).out.map Prod.fst = Except.ok [[5950, 5955]] ∧
    uPtest.lat.length = 1 ∧ uPtest.lon.length = 1 ∧
    ([[(5950 : ℚ), 5955]].getD 0 []).length = 2 ∧
    ¬([[(5950 : ℚ), 5955]].getD 0 []).length = uPtest.lon.length :=
  ⟨by decide, by decide, by decide, by decide, by decide⟩

/-- Claim C6, amended: for every call passing the lookups, over
dimension-consistent files the returned scalar field array has shape
`(len(lat), len(lon[0]))` — the row count of the latitude grid by the
column count of the longitude grid — where `lat` and `lon` are the 2-D
coordinate arrays read from the u-wind file. -/
theorem claim_C6_amended (uP vP hP : PressureFile) (uS vS dS : SurfaceFile)
    (lvl : ℚ) (date cmap bc : String) (ext : Option (List ℚ)) (s : PltState)
    (ntime nlevel ny nx mtime my mx : Nat)
    (hu : PFileWF uP ntime nlevel ny nx) (hh : PFileWF hP ntime nlevel ny nx)
    (hd : date ∈ time_convert uP.time) (hlv : lvl ∈ uP.level)
    (hus : SFileWF uS mtime my mx) (hds : SFileWF dS mtime my mx)
    (hd2 : date ∈ time_convert uS.time) :
    (∃ fld ax, (weather_plot_hgt uP vP hP lvl date cmap bc ext s).out =
        Except.ok (fld, ax) ∧
      fld.length = uP.lat.length ∧
      ∀ r ∈ fld, r.length = (uP.lon.getD 0 []).length) ∧
    (∃ fld ax, (weather_plot_dew uS vS dS date cmap bc ext s).out =
        Except.ok (fld, ax) ∧
      fld.length = uS.lat.length ∧
      ∀ r ∈ fld, r.length = (uS.lon.getD 0 []).length) := by
  obtain ⟨hut, hul, hulat, hulon, hud, hudims⟩ := hu
  obtain ⟨hht, hhl, hhlat, hhlon, hhd, hhdims⟩ := hh
  obtain ⟨hst, hslat, hslon, hsd, hsdims⟩ := hus
  obtain ⟨hdt, hdlat, hdlon, hdd, hddims⟩ := hds
  constructor
  · obtain ⟨t, ht⟩ := firstMatch_mem_some date (time_convert uP.time) hd
    obtain ⟨li, hli⟩ := firstMatch_mem_some lvl uP.level hlv
    have htlt : t < hP.data.length := by
      have := firstMatch_lt_length _ _ _ ht
      rw [time_convert_length] at this
      omega
    have hslice := hhdims (hP.data.getD t []) (getD_mem _ _ _ htlt)
    have hlilt : li < (hP.data.getD t []).length := by
      have := firstMatch_lt_length _ _ _ hli
      omega
    have hgrid := hslice.2 ((hP.data.getD t []).getD li [])
      (getD_mem _ _ _ hlilt)
    simp only [weather_plot_hgt, ht, hli]
    refine ⟨_, _, rfl, ?_, ?_⟩
    · rw [hgrid.1, hulat.1]
    · intro r hr
      rcases Nat.eq_zero_or_pos ny with hz | hp
      · exfalso
        have hlen : ((hP.data.getD t []).getD li []).length = 0 := by
          rw [hgrid.1, hz]
        rw [List.length_eq_zero.mp hlen] at hr
        exact absurd hr (List.not_mem_nil r)
      · rw [hgrid.2 r hr]
        have hlon0 : uP.lon.getD 0 [] ∈ uP.lon :=
          getD_mem _ _ _ (by rw [hulon.1]; omega)
        rw [hulon.2 _ hlon0]
  · obtain ⟨t, ht⟩ := firstMatch_mem_some date (time_convert uS.time) hd2
    have htlt : t < dS.data.length := by
      have := firstMatch_lt_length _ _ _ ht
      rw [time_convert_length] at this
      omega
    have hgrid := hddims (dS.data.getD t []) (getD_mem _ _ _ htlt)
    simp only [weather_plot_dew, ht]
    refine ⟨_, _, rfl, ?_, ?_⟩
    · rw [hgrid.1, hslat.1]
    · intro r hr
      rcases Nat.eq_zero_or_pos my with hz | hp
      · exfalso
        have hlen : (dS.data.getD t []).length = 0 := by
          rw [hgrid.1, hz]
        rw [List.length_eq_zero.mp hlen] at hr
        exact absurd hr (List.not_mem_nil r)
      · rw [hgrid.2 r hr]
        have hlon0 : uS.lon.getD 0 [] ∈ uS.lon :=
          getD_mem _ _ _ (by rw [hslon.1]; omega)
        rw [hslon.2 _ hlon0]

/-- Claim C6, witness for the amended theorem at the concrete 1 × 2 files. -/
theorem claim_C6_witness :
    (∃ fld ax, (weather_plot_hgt uPtest vPtest hPtest 500 "1800-01-01 00:00:00"
        "Reds" "darkblue" none ⟨0⟩).out = Except.ok (fld, ax) ∧
      fld.length = uPtest.lat.length ∧
      ∀ r ∈ fld, r.length = (uPtest.lon.getD 0 []).length) ∧
    (∃ fld ax, (weather_plot_dew uStest vStest dStest "1800-01-01 00:00:00"
        "Greens" "blue" none ⟨0⟩).out = Except.ok (fld, ax) ∧
      fld.length = uStest.lat.length ∧
      ∀ r ∈ fld, r.length = (uStest.lon.getD 0 []).length) :=
  ⟨(claim_C6_amended uPtest vPtest hPtest uStest vStest dStest 500
      "1800-01-01 00:00:00" "Reds" "darkblue" none ⟨0⟩ 1 1 1 2 1 1 2
      (by decide) (by decide) (by decide) (by decide) (by decide) (by decide)
      (by decide)).1,
   (claim_C6_amended uPtest vPtest hPtest uStest vStest dStest 500
      "1800-01-01 00:00:00" "Greens" "blue" none ⟨0⟩ 1 1 1 2 1 1 2
      (by decide) (by decide) (by decide) (by decide) (by decide) (by decide)
      (by decide)).2⟩

/-- Claim C7, confirmed: the height array returned by `weather_plot_hgt` is
exactly the raw slice of the height file at the found time and level
indices, with no unit conversion — and the same raw slice is what the
contour step draws; the divide-by-0.514 applied to the wind arrays does not
touch it. -/
theorem claim_C7 (uP vP hP : PressureFile) (lvl : ℚ) (date cmap bc : String)
    (ext : Option (List ℚ)) (s : PltState) (t li : Nat)
    (ht : firstMatch (fun x => x == date) (time_convert uP.time) = some t)
    (hli : firstMatch (fun l => l == lvl) uP.level = some li) :
    ∃ ax, (weather_plot_hgt uP vP hP lvl date cmap bc ext s).out =
        Except.ok ((hP.data.getD t []).getD li [], ax) ∧
      ax.contour.z = (hP.data.getD t []).getD li [] := by
  simp only [weather_plot_hgt, ht, hli]
  exact ⟨_, rfl, rfl⟩

/-- Claim C7, witness: at the concrete files the returned array is the raw
height slice `[[5950, 5955]]` as stored, untouched by the wind conversion. -/
theorem claim_C7_witness :
    (∃ ax, (weather_plot_hgt uPtest vPtest hPtest 500 "1800-01-01 00:00:00"
        "Reds" "darkblue" none ⟨0⟩).out =
        Except.ok ((hPtest.data.getD 0 []).getD 0 [], ax) ∧
      ax.contour.z = (hPtest.data.getD 0 []).getD 0 []) ∧
    (hPtest.data.getD 0 []).getD 0 [] = [[5950, 5955]] :=
  ⟨claim_C7 uPtest vPtest hPtest 500 "1800-01-01 00:00:00" "Reds" "darkblue"
    none ⟨0⟩ 0 0 (by decide) (by decide), by decide⟩

/-- Claim C8, confirmed: both renderers read the time axis (and the
pressure renderer the level axis) and the latitude/longitude grids only
from the u-wind file.  Replacing the coordinate variables of the v-wind and
scalar-field files arbitrarily while keeping their data variables changes
nothing: the whole outcome — trace, backend state, selected indices, field
and plot handle — is identical. -/
theorem claim_C8 (uP vP vP2 hP hP2 : PressureFile)
    (uS vS vS2 dS dS2 : SurfaceFile) (lvl : ℚ) (date cmap bc : String)
    (ext : Option (List ℚ)) (s : PltState)
    (hv : vP.data = vP2.data) (hh : hP.data = hP2.data)
    (hvs : vS.data = vS2.data) (hds : dS.data = dS2.data) :
    weather_plot_hgt uP vP hP lvl date cmap bc ext s =
      weather_plot_hgt uP vP2 hP2 lvl date cmap bc ext s ∧
    weather_plot_dew uS vS dS date cmap bc ext s =
      weather_plot_dew uS vS2 dS2 date cmap bc ext s := by
  constructor
  · cases hm : firstMatch (fun t => t == date) (time_convert uP.time) with
    | none => simp [weather_plot_hgt, hm]
    | some t =>
      cases hml : firstMatch (fun l => l == lvl) uP.level with
      | none => simp [weather_plot_hgt, hm, hml]
      | some li => simp [weather_plot_hgt, hm, hml, hv, hh]
  · cases hm : firstMatch (fun t => t == date) (time_convert uS.time) with
    | none => simp [weather_plot_dew, hm]
    | some t => simp [weather_plot_dew, hm, hvs, hds]

/-- Claim C8, witness: v-wind and height files with entirely different
coordinate axes but the same data variables give the identical outcome. -/
theorem claim_C8_witness :
    weather_plot_hgt uPtest vPtest hPtest 500 "1800-01-01 00:00:00" "Reds"
        "darkblue" none ⟨0⟩ =
      weather_plot_hgt uPtest vPtest2 hPtest2 500 "1800-01-01 00:00:00" "Reds"
        "darkblue" none ⟨0⟩ ∧
    weather_plot_dew uStest vStest dStest "1800-01-01 00:00:00" "Greens" "blue"
        none ⟨0⟩ =
      weather_plot_dew uStest vStest2 dStest2 "1800-01-01 00:00:00" "Greens"
        "blue" none ⟨0⟩ :=
  ⟨(claim_C8 uPtest vPtest vPtest2 hPtest hPtest2 uStest vStest vStest2 dStest
      dStest2 500 "1800-01-01 00:00:00" "Reds" "darkblue" none ⟨0⟩
      rfl rfl rfl rfl).1,
   (claim_C8 uPtest vPtest vPtest2 hPtest hPtest2 uStest vStest vStest2 dStest
      dStest2 500 "1800-01-01 00:00:00" "Greens" "blue" none ⟨0⟩
      rfl rfl rfl rfl).2⟩

/-- Claim C9, confirmed: two successive `weather_plot_hgt` calls with
identical arguments return the identical scalar field array, and each call
allocates a fresh figure for its axis — the two returned handles belong to
distinct figures (ids `s.nextFig` and `s.nextFig + 1`), so they are
structurally independent; the second call leaves the first call's handle
and returned array untouched (both are pure values in the model, and the
only backend state, the figure counter, only moves forward). -/
theorem claim_C9 (uP vP hP : PressureFile) (lvl : ℚ) (date cmap bc : String)
    (ext : Option (List ℚ)) (s : PltState)
    (h1 : (weather_plot_hgt uP vP hP lvl date cmap bc ext s).out.isOk = true) :
    ∃ fld a1 a2,
      (weather_plot_hgt uP vP hP lvl date cmap bc ext s).out =
          Except.ok (fld, a1) ∧
      (weather_plot_hgt uP vP hP lvl date cmap bc ext
          ((weather_plot_hgt uP vP hP lvl date cmap bc ext s).plt)).out =
          Except.ok (fld, a2) ∧
      a1.figId = s.nextFig ∧ a2.figId = s.nextFig + 1 ∧
      a1.figId ≠ a2.figId ∧
      a1.contour = a2.contour ∧ a1.barbs = a2.barbs := by
  cases hm : firstMatch (fun t => t == date) (time_convert uP.time) with
  | none => simp [weather_plot_hgt, hm, Except.isOk, Except.toBool] at h1
  | some t =>
    cases hml : firstMatch (fun l => l == lvl) uP.level with
    | none => simp [weather_plot_hgt, hm, hml, Except.isOk, Except.toBool] at h1
    | some li =>
      simp only [weather_plot_hgt, hm, hml]
      refine ⟨_, _, _, rfl, rfl, rfl, rfl, ?_, rfl, rfl⟩
      simp

/-- Claim C9, witness: at the concrete files both calls return the raw
height slice and handles on figures 0 and 1. -/
theorem claim_C9_witness :
    (weather_plot_hgt uPtest vPtest hPtest 500 "1800-01-01 00:00:00" "Reds"
        "darkblue" none ⟨0⟩).out.isOk = true ∧
    ∃ fld a1 a2,
      (weather_plot_hgt uPtest vPtest hPtest 500 "1800-01-01 00:00:00" "Reds"
          "darkblue" none ⟨0⟩).out = Except.ok (fld, a1) ∧
      (weather_plot_hgt uPtest vPtest hPtest 500 "1800-01-01 00:00:00" "Reds"
          "darkblue" none
          ((weather_plot_hgt uPtest vPtest hPtest 500 "1800-01-01 00:00:00"
            "Reds" "darkblue" none ⟨0⟩).plt)).out = Except.ok (fld, a2) ∧
      a1.figId = (⟨0⟩ : PltState).nextFig ∧
      a2.figId = (⟨0⟩ : PltState).nextFig + 1 ∧
      a1.figId ≠ a2.figId ∧
      a1.contour = a2.contour ∧ a1.barbs = a2.barbs :=
  ⟨by decide,
   claim_C9 uPtest vPtest hPtest 500 "1800-01-01 00:00:00" "Reds" "darkblue"
     none ⟨0⟩ (by decide)⟩

/-- Claim C10, corrected, counterexample to the claim as stated.  The
offset −1/2 is negative, yet — precisely because `int()` truncates toward
zero — it maps to 0 hours and decodes to `1800-01-01 00:00:00` itself, not
to a timestamp strictly before the epoch. -/
theorem claim_C10_counterexample :
    mkRat (-1) 2 < 0 ∧
    time_convert [mkRat (-1) 2] = ["1800-01-01 00:00:00"] :=
  ⟨by decide, by decide⟩

/-- Claim C10, amended: `time_convert` truncates offsets toward zero
(floor for nonnegative offsets, ceiling for negative ones, so −1.5 maps to
−1, not −2); every offset is accepted (the decoder is total); an offset
truncating to a negative hour count decodes to a timestamp chronologically
strictly before 1800-01-01 00:00:00, while a fractional offset in (−1, 0)
truncates to zero and decodes to exactly the epoch string. -/
theorem claim_C10_amended (q : ℚ) :
    (0 ≤ q → ratTrunc q = ⌊q⌋) ∧
    (q < 0 → ratTrunc q = ⌈q⌉) ∧
    (ratTrunc q < 0 → dtBefore (hoursToDT q) epochDT) ∧
    (-1 < q → q < 0 → fmtDT (hoursToDT q) = "1800-01-01 00:00:00") := by
  refine ⟨fun h => ratTrunc_eq_floor h, fun h => ratTrunc_eq_ceil h,
    fun h => ?_, fun h1 h2 => ?_⟩
  · have hy := hoursToDT_year_le q h
    exact Or.inl (by simp only [epochDT]; omega)
  · have h0 : ratTrunc q = 0 := by
      rw [ratTrunc_eq_ceil h2]
      exact Int.ceil_eq_zero_iff.mpr (Set.mem_Ioc.mpr ⟨h1, h2.le⟩)
    simp only [hoursToDT, h0]
    decide

/-- Claim C10, witness: −1.5 truncates to −1 (its ceiling, not its floor
−2), decodes without error to `1799-12-31 23:00:00`, chronologically before
the epoch; and −1/2 decodes to the epoch itself. -/
theorem claim_C10_witness :
    ratTrunc (mkRat (-3) 2) = ⌈(mkRat (-3) 2 : ℚ)⌉ ∧
    ratTrunc (mkRat (-3) 2) = -1 ∧
    ⌊(mkRat (-3) 2 : ℚ)⌋ = -2 ∧
    dtBefore (hoursToDT (mkRat (-3) 2)) epochDT ∧
    time_convert [mkRat (-3) 2] = ["1799-12-31 23:00:00"] ∧
    fmtDT (hoursToDT (mkRat (-1) 2)) = "1800-01-01 00:00:00" :=
  ⟨(claim_C10_amended (mkRat (-3) 2)).2.1 (by decide),
   by decide,
   by rw [Rat.floor_def]; decide,
   (claim_C10_amended (mkRat (-3) 2)).2.2.1 (by decide),
   by decide,
   (claim_C10_amended (mkRat (-1) 2)).2.2.2 (by norm_num [Rat.mkRat_eq_div])
     (by norm_num [Rat.mkRat_eq_div])⟩
